import Mathlib

/-!
Shallow embedding of `src/app.py`, a Streamlit audio-notes application that
stores text notes (with embeddings) in a Qdrant vector store and retrieves
them by scroll (unfiltered listing) or similarity search.

Modelling conventions:
* External services (OpenAI embedding/transcription, Qdrant) are modelled as
  oracles passed in as function arguments, or as explicit store state.
* Embedding vectors are abstracted as `List Int` (no claim depends on
  floating-point arithmetic, only on which vector is stored for which text).
* Streamlit effects (`st.error`, `st.info`, `st.stop`) are modelled as
  explicit message lists and a `halted` flag in the returned records.
* Qdrant API calls performed by a function are recorded in a `List DbCall`
  trace so that claims about which calls happen can be stated.
-/

namespace AudioNotes

/-- Abstract embedding vectors (the app uses 3072-dim float vectors; the
numeric content is irrelevant to every claim, only identity matters). -/
abbrev Vec := List Int

/-- `QDRANT_COLLECTION_NAME = "notes"` from app.py line 35. -/
def QDRANT_COLLECTION_NAME : String := "notes"

/-- `EMBEDDING_DIM = 3072` from app.py line 33. -/
def EMBEDDING_DIM : Nat := 3072

/-- A point stored in the Qdrant collection: `PointStruct(id=..., vector=...,
payload={"text": ...})` as built in `add_note_to_db` (app.py lines 120-124). -/
structure Point where
  id : Nat
  vector : Vec
  text : String
deriving DecidableEq, Repr

/-- A Streamlit message shown to the user (`st.error` / `st.info`). -/
inductive Msg where
  | error (s : String)
  | info (s : String)
deriving DecidableEq, Repr

/-- Whether a message is an `st.error` message. -/
def Msg.isError : Msg → Bool
  | .error _ => true
  | .info _ => false

/-- One Qdrant client API call, as issued by app.py. -/
inductive DbCall where
  | getHealth
  | collectionExists
  | createCollection
  | count
  | upsert (p : Point)
  | scroll
  | search
deriving DecidableEq, Repr

/-- State of the external Qdrant vector store, as far as app.py observes it:
whether the server is reachable (`get_health` succeeds), which collections
exist, and the points of the `"notes"` collection. -/
structure QdrantStore where
  reachable : Bool
  collections : List String
  points : List Point
deriving DecidableEq, Repr

/-- Qdrant upsert semantics for a single point: replace the point with the
same id if one exists, otherwise insert the new point. -/
def upsertPoint (ps : List Point) (p : Point) : List Point :=
  if ps.any (fun q => q.id = p.id) then
    ps.map (fun q => if q.id = p.id then p else q)
  else
    ps ++ [p]

/-- `test_qdrant_connection` (app.py lines 66-73): calls `get_health`; on an
exception shows `st.error` and returns `False`, otherwise returns `True`. -/
def test_qdrant_connection (s : QdrantStore) : Bool × List Msg :=
  if s.reachable then
    (true, [])
  else
    (false, [Msg.error "Nie udało się połączyć z Qdrant"])

/-- Result of `assure_db_collection_exists`: the store afterwards, the
Streamlit messages shown, whether `st.stop()` was reached, and the Qdrant
calls issued. -/
structure AssureResult where
  store : QdrantStore
  msgs : List Msg
  halted : Bool
  calls : List DbCall
deriving DecidableEq, Repr

/-- `assure_db_collection_exists` (app.py lines 76-99): first runs
`test_qdrant_connection`; if that fails it returns early (plain `return`,
no `st.stop`). Otherwise it checks `collection_exists("notes")` and creates
the collection when absent. The surrounding `try/except` (which would call
`st.stop()`) only fires on an external exception; in this model a store whose
health check succeeded services the collection calls, so that branch is not
taken and `halted` stays `false`. -/
def assure_db_collection_exists (s : QdrantStore) : AssureResult :=
  if s.reachable then
    if s.collections.contains QDRANT_COLLECTION_NAME then
      { store := s
        msgs := [Msg.info "Kolekcja już istnieje."]
        halted := false
        calls := [DbCall.getHealth, DbCall.collectionExists] }
    else
      { store := { s with collections := s.collections ++ [QDRANT_COLLECTION_NAME] }
        msgs := [Msg.info "Kolekcja nie istnieje. Tworzymy ją."]
        halted := false
        calls := [DbCall.getHealth, DbCall.collectionExists, DbCall.createCollection] }
  else
    { store := s
      msgs := [Msg.error "Nie udało się połączyć z Qdrant"]
      halted := false
      calls := [DbCall.getHealth] }

/-- The application shell around startup (app.py lines 171-174): after
`assure_db_collection_exists()` the script simply continues to
`st.tabs(...)`; only an `st.stop()` would prevent the tabs from rendering. -/
structure AppRun where
  store : QdrantStore
  msgs : List Msg
  halted : Bool
  calls : List DbCall
  tabsRendered : Bool
deriving DecidableEq, Repr

/-- Startup flow of the application shell: run the collection assurance, then
render the two tabs unless the script was stopped. -/
def app_main (s : QdrantStore) : AppRun :=
  let r := assure_db_collection_exists s
  { store := r.store
    msgs := r.msgs
    halted := r.halted
    calls := r.calls
    tabsRendered := !r.halted }

/-- `add_note_to_db` (app.py lines 112-125): reads the exact point count of
the collection, then upserts a single point with id `count + 1`, vector
`get_embeddings(note_text)` and payload text `note_text`. Returns the new
store and the Qdrant calls issued. -/
def add_note_to_db (emb : String → Vec) (note_text : String) (s : QdrantStore) :
    QdrantStore × List DbCall :=
  let points_count := s.points.length
  let p : Point := { id := points_count + 1, vector := emb note_text, text := note_text }
  ({ s with points := upsertPoint s.points p },
   [DbCall.count, DbCall.upsert p])

/-- A record returned by `qdrant_client.scroll` (qdrant `Record` model): it
carries id, payload and optionally a vector, but it has NO `score` field.
Python attribute access `record.score` therefore raises `AttributeError`. -/
structure Record where
  id : Nat
  payload_text : String
deriving DecidableEq, Repr

/-- A point returned by `qdrant_client.search` (qdrant `ScoredPoint` model):
id, payload, and a similarity `score`. -/
structure ScoredPoint where
  id : Nat
  payload_text : String
  score : Int
deriving DecidableEq, Repr

/-- Python attribute access `note.score` on a scroll `Record`: the qdrant
`Record` pydantic model has no `score` attribute, so this is an
`AttributeError`, modelled as `Except.error`. -/
def Record.getScore (_ : Record) : Except String Int :=
  Except.error "AttributeError: Record object has no attribute score"

/-- `qdrant_client.scroll(collection_name, limit, offset)` (app.py line 131):
returns the collection points in id order starting at point id `offset`,
at most `limit` of them, as `Record`s (no score). -/
def scrollRecords (s : QdrantStore) (limit offset : Nat) : List Record :=
  ((s.points.filter (fun p => offset ≤ p.id)).take limit).map
    (fun p => { id := p.id, payload_text := p.text })

/-- Similarity stand-in for the external cosine ranking: an inner product.
No claim depends on the ranking itself, only on the shape of search results. -/
def dotSim (u v : Vec) : Int :=
  (List.zipWith (fun a b => a * b) u v).sum

/-- `qdrant_client.search(collection_name, query_vector, limit, offset)`
(app.py lines 133-138): returns up to `limit` points (after skipping
`offset`) as `ScoredPoint`s annotated with a similarity score. The external
ranking order is abstracted. -/
def searchScored (s : QdrantStore) (qv : Vec) (limit offset : Nat) : List ScoredPoint :=
  (((s.points.map (fun p => ({ id := p.id, payload_text := p.text, score := dotSim qv p.vector } : ScoredPoint))).drop offset).take limit)

/-- A `{"text": ..., "score": ...}` dict as built by `list_notes_from_db`. -/
structure SearchEntry where
  text : String
  score : Option Int
deriving DecidableEq, Repr

/-- `list_notes_from_db(query=None, offset=0, limit=10)` (app.py lines
128-140). Python `if not query:` is true for both `None` and `""`, selecting
the scroll branch; otherwise the search branch runs with the embedded query.
Both branches feed the merged comprehension
`[{"text": note.payload["text"], "score": note.score} for note in notes]`:
on the search branch `note.score` exists, but on the scroll branch `note`
is a `Record` and `note.score` raises `AttributeError` (so the first record
processed aborts the whole comprehension, modelled with `mapM`). -/
def list_notes_from_db (emb : String → Vec) (query : Option String)
    (offset limit : Nat) (s : QdrantStore) : Except String (List SearchEntry) :=
  if query.getD "" = "" then
    (scrollRecords s limit offset).mapM (fun note => do
      let sc ← note.getScore
      pure ({ text := note.payload_text, score := some sc } : SearchEntry))
  else
    Except.ok ((searchScored s (emb (query.getD "")) limit offset).map
      (fun note => { text := note.payload_text, score := some note.score }))

/-- `get_secret(key)` (app.py lines 23-29): checks `st.secrets` first, then
`os.environ`, and otherwise raises `ValueError` (modelled as `Except.error`
with the message of app.py line 29, minus the quote characters around the
key). `st.secrets` and `os.environ` are modelled as association lists. -/
def lookupKV (m : List (String × String)) (k : String) : Option String :=
  (m.find? (fun kv => kv.1 = k)).map (fun kv => kv.2)

/-- The Secret Resolver itself (app.py lines 23-29). -/
def get_secret (secrets osEnv : List (String × String)) (key : String) :
    Except String String :=
  match lookupKV secrets key with
  | some v => Except.ok v
  | none =>
    match lookupKV osEnv key with
    | some v => Except.ok v
    | none => Except.error
        ("Secret " ++ key ++ " not found in Streamlit secrets or .env environment variables.")

/-- `load_dotenv()` (app.py line 14): python-dotenv loads the `.env` file
into `os.environ` without overriding keys that are already present. -/
def load_dotenv (dotenvFile osEnv : List (String × String)) :
    List (String × String) :=
  osEnv ++ dotenvFile.filter (fun kv => lookupKV osEnv kv.1 = none)

/-- Set (replace-or-append) a key in an association list, for the dict
assignments `env["QDRANT_URL"] = ...` of app.py lines 18 and 20. -/
def setKV (m : List (String × String)) (k v : String) : List (String × String) :=
  if m.any (fun kv => kv.1 = k) then
    m.map (fun kv => if kv.1 = k then (k, v) else kv)
  else
    m ++ [(k, v)]

/-- The `env` dict of app.py lines 16-20: `dotenv_values(".env")` with
`QDRANT_URL` / `QDRANT_API_KEY` overridden from `st.secrets` when present. -/
def envMapping (dotenvFile secrets : List (String × String)) :
    List (String × String) :=
  let e := dotenvFile
  let e := match lookupKV secrets "QDRANT_URL" with
    | some v => setKV e "QDRANT_URL" v
    | none => e
  match lookupKV secrets "QDRANT_API_KEY" with
  | some v => setKV e "QDRANT_API_KEY" v
  | none => e

/-- The constructor arguments of `QdrantClient(url=..., api_key=...)`. -/
structure QdrantClientCfg where
  url : Option String
  api_key : Option String
deriving DecidableEq, Repr

/-- `get_qdrant_client` (app.py lines 58-63): reads `QDRANT_URL` and
`QDRANT_API_KEY` directly from `os.environ` via `os.getenv`; it does not
consult `get_secret`, `st.secrets`, or the `env` dict. -/
def get_qdrant_client (osEnviron : List (String × String)) : QdrantClientCfg :=
  { url := lookupKV osEnviron "QDRANT_URL"
    api_key := lookupKV osEnviron "QDRANT_API_KEY" }

/-- The credential part of startup (app.py lines 13-20 and 58-63): given the
`.env` file contents, the deployment secret store `st.secrets`, and the
initial process environment, `load_dotenv` populates `os.environ`, the `env`
dict gets the secret overrides, and the Qdrant client is constructed from
`os.environ`. -/
structure StartupCreds where
  envDict : List (String × String)
  client : QdrantClientCfg
deriving DecidableEq, Repr

/-- Startup credential plumbing of app.py: the `env` dict (with secret
overrides) is computed but never passed to `get_qdrant_client`, which reads
`os.environ` as populated by `load_dotenv`. -/
def startup_creds (dotenvFile secrets osEnv : List (String × String)) :
    StartupCreds :=
  { envDict := envMapping dotenvFile secrets
    client := get_qdrant_client (load_dotenv dotenvFile osEnv) }

/-- What `transcribe_audio` produces: the `st.error` messages shown and the
string returned to the caller. The Lean return type is a plain record (not
`Except`), mirroring that the Python function catches every `Exception` and
always returns a string. -/
structure TranscribeRun where
  errors : List String
  result : String
deriving DecidableEq, Repr

/-- `transcribe_audio(audio_bytes)` (app.py lines 42-55): calls the OpenAI
transcription endpoint (modelled as an oracle from audio bytes to either a
transcript or a raised exception message); on success returns
`transcript.text`, on any exception shows `st.error` and returns `""`. -/
def transcribe_audio (api : List Nat → Except String String) (audio_bytes : List Nat) :
    TranscribeRun :=
  match api audio_bytes with
  | Except.ok text => { errors := [], result := text }
  | Except.error e =>
      { errors := ["Nie udało się przetworzyć audio: " ++ e], result := "" }

/-- Streamlit session state fields used by the add-note flow (app.py lines
159-169): the MD5 hex digest of the last captured audio, the raw audio
bytes, the user-edited note text, and the raw transcript text. -/
structure SessionState where
  note_audio_bytes_md5 : Option String
  note_audio_bytes : Option (List Nat)
  note_text : String
  note_audio_text : String
deriving DecidableEq, Repr

/-- The audio-capture handler of the add tab (app.py lines 181-189), run when
the recorder returned audio: store the exported bytes, compute the MD5 hex
digest of the bytes (the digest function is an oracle parameter), and if it
differs from the stored digest, clear the transcript and the edited text and
store the new digest. -/
def audio_capture_handler (md5hex : List Nat → String) (s : SessionState)
    (audio : List Nat) : SessionState :=
  let s := { s with note_audio_bytes := some audio }
  let current_md5 := md5hex audio
  if s.note_audio_bytes_md5 ≠ some current_md5 then
    { s with
      note_audio_text := ""
      note_text := ""
      note_audio_bytes_md5 := some current_md5 }
  else
    s

/-- The user-interaction inputs of one rerun of the add tab: whether the
"Transkrybuj audio" button was clicked, the current contents of the
"Edytuj notatkę" text area, and whether the "Zapisz notatkę" button was
clicked. -/
structure AddTabUi where
  transcribeClicked : Bool
  editedText : String
  saveClicked : Bool
deriving DecidableEq, Repr

/-- One rerun of the add tab (app.py lines 176-199). The source file is
truncated mid-line at the save guard
`if st.session_state["note_text"] and st.button("Zapisz notatkę", ...)`
(line 199), so the guard condition is in the source but the handler body is
not. Modelled from the spec: the missing save-handler body invokes the
Vector Store Gateway upsert (`add_note_to_db`) with the edited note text.
Steps, following the source: if no audio was recorded nothing runs;
otherwise the audio-capture handler runs, then the transcribe button (when
clicked) stores `transcribe_audio`s result, then — only when the transcript
is non-empty — the text area is rendered and its contents stored in
`note_text`, and finally the save guard requires a truthy (non-empty)
`note_text` before the save button can fire. This helper is the
session-state portion of the rerun (everything before the save guard). -/
def add_tab_session (md5hex : List Nat → String)
    (api : List Nat → Except String String) (ui : AddTabUi) (audio : List Nat)
    (s : SessionState) : SessionState :=
  let s := audio_capture_handler md5hex s audio
  let s := if ui.transcribeClicked then
      { s with note_audio_text := (transcribe_audio api audio).result }
    else s
  if s.note_audio_text ≠ "" then { s with note_text := ui.editedText } else s

/-- The add-tab rerun: session-state updates followed by the guarded save. -/
def add_tab_flow (md5hex : List Nat → String) (api : List Nat → Except String String)
    (emb : String → Vec) (ui : AddTabUi) (audio : List Nat) (s : SessionState)
    (store : QdrantStore) : SessionState × QdrantStore × List DbCall :=
  if audio = [] then
    (s, store, [])
  else
    let s := add_tab_session md5hex api ui audio s
    if s.note_text ≠ "" ∧ ui.saveClicked = true then
      let r := add_note_to_db emb s.note_text store
      (s, r.1, r.2)
    else
      (s, store, [])

/-- The operations this system performs against the vector store. -/
inductive Op where
  | assure
  | addNote (text : String)
  | listNotes (query : Option String) (offset limit : Nat)
deriving DecidableEq, Repr

/-- Effect of one operation on the store. `listNotes` is read-only (even when
its comprehension raises, the store is untouched). -/
def runOp (emb : String → Vec) (s : QdrantStore) : Op → QdrantStore
  | Op.assure => (assure_db_collection_exists s).store
  | Op.addNote t => (add_note_to_db emb t s).1
  | Op.listNotes _ _ _ => s

/-- Run a sequence of operations from a starting store. -/
def runOps (emb : String → Vec) (s : QdrantStore) (ops : List Op) : QdrantStore :=
  ops.foldl (runOp emb) s

/-- The store as this application first sees it: reachable, before the
collection is assured, with no points. -/
def initStore : QdrantStore :=
  { reachable := true, collections := [], points := [] }

/-! Concrete instantiations used by counterexamples and witnesses. -/

/-- A concrete embedding oracle for witnesses. -/
def emb0 : String → Vec := fun t => [Int.ofNat t.length]

/-- A concrete digest oracle for witnesses (only digest equality matters). -/
def md5hex0 : List Nat → String := fun a => toString a.length

/-- A reachable store whose `"notes"` collection holds exactly 3 notes. -/
def store3 : QdrantStore :=
  { reachable := true
    collections := [QDRANT_COLLECTION_NAME]
    points := [{ id := 1, vector := [1], text := "a" },
               { id := 2, vector := [2], text := "b" },
               { id := 3, vector := [3], text := "c" }] }

/-- A reachable store with the collection present and no points. -/
def emptyStore : QdrantStore :=
  { reachable := true, collections := [QDRANT_COLLECTION_NAME], points := [] }

/-- An unreachable store (health check fails). -/
def unreachableStore : QdrantStore :=
  { reachable := false, collections := [], points := [] }

/-- C1: claimed behaviour is that an unfiltered listing of a 3-note store
returns exactly 3 entries with `score = None`; the code instead evaluates
`note.score` on scroll `Record`s, which have no `score` attribute, so the
call raises `AttributeError` and returns no entries. This theorem evaluates
the embedded code at the failing input (a store with exactly 3 notes,
`query=None`, `offset=0`, `limit=10`). -/
theorem c1_listing_raises_on_three_notes :
    store3.points.length = 3
    ∧ list_notes_from_db emb0 none 0 10 store3
        = Except.error "AttributeError: Record object has no attribute score" := by
  constructor
  · rfl
  · rfl

/-- C2: `add_note_to_db` assigns the new point the id `count + 1` where
`count` is the exact point count at insert time; from an empty store the
first insert stores id 1 and the second stores id 2 (sequential model, i.e.
absent concurrent writers). -/
theorem c2_identifier_is_count_plus_one (emb : String → Vec) (t : String)
    (s : QdrantStore) :
    (add_note_to_db emb t s).2
      = [DbCall.count,
         DbCall.upsert { id := s.points.length + 1, vector := emb t, text := t }]
    ∧ (add_note_to_db emb "buy milk" emptyStore).1.points
      = [{ id := 1, vector := emb "buy milk", text := "buy milk" }]
    ∧ (add_note_to_db emb "call mom" (add_note_to_db emb "buy milk" emptyStore).1).1.points
      = [{ id := 1, vector := emb "buy milk", text := "buy milk" },
         { id := 2, vector := emb "call mom", text := "call mom" }] :=
  ⟨rfl, rfl, rfl⟩

/-- C3: the audio-capture handler clears the transcript and the edited note
text together and stores the new digest exactly when the computed digest
differs from the stored one; when the digests agree, the session state is
unchanged except for the raw audio bytes. -/
theorem c3_hash_change_clears_fields (md5hex : List Nat → String)
    (s : SessionState) (audio : List Nat) :
    (s.note_audio_bytes_md5 ≠ some (md5hex audio) →
      (audio_capture_handler md5hex s audio).note_audio_text = ""
      ∧ (audio_capture_handler md5hex s audio).note_text = ""
      ∧ (audio_capture_handler md5hex s audio).note_audio_bytes_md5 = some (md5hex audio))
    ∧ (s.note_audio_bytes_md5 = some (md5hex audio) →
      audio_capture_handler md5hex s audio = { s with note_audio_bytes := some audio }) := by
  unfold audio_capture_handler
  constructor
  · intro h
    simp [h]
  · intro h
    simp [h]

/-- A session state with stale transcript and edited text and no stored
digest, used to witness C3. -/
def sessionStale : SessionState :=
  { note_audio_bytes_md5 := none
    note_audio_bytes := none
    note_text := "stale edit"
    note_audio_text := "stale transcript" }

/-- C3 witness: on concrete new audio whose digest differs from the (absent)
stored digest, both fields are cleared and the digest is stored. -/
theorem c3_hash_change_clears_fields_witness :
    (audio_capture_handler md5hex0 sessionStale [7]).note_audio_text = ""
    ∧ (audio_capture_handler md5hex0 sessionStale [7]).note_text = ""
    ∧ (audio_capture_handler md5hex0 sessionStale [7]).note_audio_bytes_md5
        = some (md5hex0 [7]) :=
  (c3_hash_change_clears_fields md5hex0 sessionStale [7]).1 (by decide)

/-- C4 counterexample: the claim says that on a failed health check the
application halts as a whole; at the concrete unreachable store the embedded
code shows no `st.stop` was reached and the shell goes on to render the two
tabs (degraded continuation), so the claim as stated is false. -/
theorem c4_counterexample_app_continues :
    unreachableStore.reachable = false
    ∧ (app_main unreachableStore).halted = false
    ∧ (app_main unreachableStore).tabsRendered = true := by
  refine ⟨rfl, rfl, rfl⟩

/-- C4 (amended): if the health check fails, `assure_db_collection_exists`
reports an error and returns early — it issues no collection-existence check
and no collection creation and leaves the store untouched — but it does not
halt the application: the shell continues and renders the tabs. -/
theorem c4_unreachable_reports_and_skips (s : QdrantStore)
    (h : s.reachable = false) :
    (assure_db_collection_exists s).calls = [DbCall.getHealth]
    ∧ (assure_db_collection_exists s).msgs
        = [Msg.error "Nie udało się połączyć z Qdrant"]
    ∧ (assure_db_collection_exists s).store = s
    ∧ (app_main s).halted = false
    ∧ (app_main s).tabsRendered = true := by
  simp [app_main, assure_db_collection_exists, h]

/-- C4 witness: the amended statement at the concrete unreachable store. -/
theorem c4_unreachable_reports_and_skips_witness :
    (assure_db_collection_exists unreachableStore).calls = [DbCall.getHealth]
    ∧ (assure_db_collection_exists unreachableStore).msgs
        = [Msg.error "Nie udało się połączyć z Qdrant"]
    ∧ (assure_db_collection_exists unreachableStore).store = unreachableStore
    ∧ (app_main unreachableStore).halted = false
    ∧ (app_main unreachableStore).tabsRendered = true :=
  c4_unreachable_reports_and_skips unreachableStore rfl

/-- The `.env` file contents used in the C5 counterexample. -/
def cexDotenv : List (String × String) := [("QDRANT_URL", "http://env.example")]

/-- The deployment secret store used in the C5 counterexample. -/
def cexSecrets : List (String × String) := [("QDRANT_URL", "http://secrets.example")]

/-- C5 counterexample: with `QDRANT_URL` present both in the deployment
secret store and in the `.env` file (and the secret value different), the
secret value lands only in the never-used `env` dict, while the constructed
Qdrant client receives the environment value — so the secret-store value
does not take precedence at client construction, falsifying the claim. -/
theorem c5_counterexample_secret_not_used :
    lookupKV cexSecrets "QDRANT_URL" = some "http://secrets.example"
    ∧ (startup_creds cexDotenv cexSecrets []).envDict
        = [("QDRANT_URL", "http://secrets.example")]
    ∧ (startup_creds cexDotenv cexSecrets []).client.url = some "http://env.example"
    ∧ (startup_creds cexDotenv cexSecrets []).client.url
        ≠ lookupKV cexSecrets "QDRANT_URL" := by
  refine ⟨rfl, rfl, rfl, by decide⟩

/-- C5 (amended): the vector-store client is constructed from the process
environment as populated by `load_dotenv` alone; the deployment secret store
influences only the separate `env` dict, which is never used for client
construction, so the client configuration is invariant under any change of
the secret store. -/
theorem c5_client_reads_os_environ (dotenvFile osEnv s1 s2 : List (String × String)) :
    (startup_creds dotenvFile s1 osEnv).client = (startup_creds dotenvFile s2 osEnv).client
    ∧ (startup_creds dotenvFile s1 osEnv).client
        = { url := lookupKV (load_dotenv dotenvFile osEnv) "QDRANT_URL"
            api_key := lookupKV (load_dotenv dotenvFile osEnv) "QDRANT_API_KEY" } :=
  ⟨rfl, rfl⟩

/-- C6: `get_secret` returns the deployment-secret value when the key is in
`st.secrets`, otherwise the process-environment value when present there,
and otherwise fails with the typed missing-secret error. -/
theorem c6_get_secret_resolution (secrets osEnv : List (String × String))
    (key : String) :
    (∀ v, lookupKV secrets key = some v → get_secret secrets osEnv key = Except.ok v)
    ∧ (lookupKV secrets key = none →
        ∀ v, lookupKV osEnv key = some v → get_secret secrets osEnv key = Except.ok v)
    ∧ (lookupKV secrets key = none → lookupKV osEnv key = none →
        get_secret secrets osEnv key = Except.error
          ("Secret " ++ key ++ " not found in Streamlit secrets or .env environment variables.")) := by
  refine ⟨fun v hv => ?_, fun hn v hv => ?_, fun hn hn2 => ?_⟩
  · unfold get_secret
    rw [hv]
  · unfold get_secret
    rw [hn, hv]
  · unfold get_secret
    rw [hn, hn2]

/-- Secrets mapping used in the C6 witness. -/
def secretsW : List (String × String) := [("OPENAI_API_KEY", "sk-from-secrets")]

/-- Process environment used in the C6 witness. -/
def osEnvW : List (String × String) :=
  [("OPENAI_API_KEY", "sk-from-env"), ("QDRANT_URL", "http://env.example")]

/-- C6 witness: all three resolution cases at concrete mappings — secret
store wins for a key present in both, environment serves a key absent from
the secret store, and a key absent from both yields the typed error. -/
theorem c6_get_secret_resolution_witness :
    get_secret secretsW osEnvW "OPENAI_API_KEY" = Except.ok "sk-from-secrets"
    ∧ get_secret secretsW osEnvW "QDRANT_URL" = Except.ok "http://env.example"
    ∧ get_secret secretsW osEnvW "ABSENT_KEY" = Except.error
        ("Secret " ++ "ABSENT_KEY" ++ " not found in Streamlit secrets or .env environment variables.") :=
  ⟨(c6_get_secret_resolution secretsW osEnvW "OPENAI_API_KEY").1 "sk-from-secrets" (by decide),
   (c6_get_secret_resolution secretsW osEnvW "QDRANT_URL").2.1 (by decide)
     "http://env.example" (by decide),
   (c6_get_secret_resolution secretsW osEnvW "ABSENT_KEY").2.2 (by decide) (by decide)⟩

/-- C7: whenever the transcription provider call raises, `transcribe_audio`
returns the empty string and shows a user-visible error message; the
function is total over all oracle outcomes (its Lean type returns a plain
record, mirroring that the Python `except Exception` catch-all never lets
the exception propagate). -/
theorem c7_transcribe_swallows_errors (api : List Nat → Except String String)
    (audio : List Nat) (e : String) (h : api audio = Except.error e) :
    (transcribe_audio api audio).result = ""
    ∧ (transcribe_audio api audio).errors
        = ["Nie udało się przetworzyć audio: " ++ e] := by
  unfold transcribe_audio
  rw [h]
  exact ⟨rfl, rfl⟩

/-- A transcription oracle that always raises, used in the C7 witness. -/
def apiFail : List Nat → Except String String := fun _ => Except.error "boom"

/-- C7 witness: the failing provider at concrete audio yields `""` plus the
user-visible message. -/
theorem c7_transcribe_swallows_errors_witness :
    (transcribe_audio apiFail [0, 1]).result = ""
    ∧ (transcribe_audio apiFail [0, 1]).errors
        = ["Nie udało się przetworzyć audio: " ++ "boom"] :=
  c7_transcribe_swallows_errors apiFail [0, 1] "boom" rfl

/-- C8: on a reachable store, running `assure_db_collection_exists` twice in
a row leaves the store exactly as after the first run, the second run shows
no error and reaches no `st.stop`, and it issues no `create_collection`
call (so across the two runs at most one collection is ever created). -/
theorem c8_assure_idempotent (s : QdrantStore) (h : s.reachable = true) :
    (assure_db_collection_exists (assure_db_collection_exists s).store).store
      = (assure_db_collection_exists s).store
    ∧ (assure_db_collection_exists (assure_db_collection_exists s).store).halted = false
    ∧ (∀ m ∈ (assure_db_collection_exists (assure_db_collection_exists s).store).msgs,
        m.isError = false)
    ∧ DbCall.createCollection
        ∉ (assure_db_collection_exists (assure_db_collection_exists s).store).calls := by
  by_cases hc : QDRANT_COLLECTION_NAME ∈ s.collections
  · simp [assure_db_collection_exists, h, hc, Msg.isError]
  · simp [assure_db_collection_exists, h, hc, Msg.isError, List.mem_append]

/-- C8 witness: the double run at the concrete fresh reachable store (no
collection yet): the second run changes nothing and never creates. -/
theorem c8_assure_idempotent_witness :
    (assure_db_collection_exists (assure_db_collection_exists initStore).store).store
      = (assure_db_collection_exists initStore).store
    ∧ (assure_db_collection_exists (assure_db_collection_exists initStore).store).halted = false
    ∧ DbCall.createCollection
        ∉ (assure_db_collection_exists (assure_db_collection_exists initStore).store).calls :=
  ⟨(c8_assure_idempotent initStore rfl).1,
   (c8_assure_idempotent initStore rfl).2.1,
   (c8_assure_idempotent initStore rfl).2.2.2⟩

/-- Invariant: the point list of the notes collection carries the canonical
ids `1, 2, ..., n` in order — exactly what sequential `count + 1` assignment
produces from an empty collection. -/
abbrev canonicalIds (ps : List Point) : Prop :=
  ps.map Point.id = List.range' 1 ps.length

/-- Invariant tying every stored note to its own embedding: canonical ids,
and each stored point carries the embedding of exactly its own text. -/
def Good (emb : String → Vec) (s : QdrantStore) : Prop :=
  canonicalIds s.points ∧ ∀ p ∈ s.points, p.vector = emb p.text

/-- `assure_db_collection_exists` never touches the points of the store. -/
theorem assure_preserves_points (s : QdrantStore) :
    (assure_db_collection_exists s).store.points = s.points := by
  unfold assure_db_collection_exists
  split
  · split
    · rfl
    · rfl
  · rfl

/-- With canonical ids `1..n`, the id `n + 1` is fresh. -/
theorem canonical_fresh_id (ps : List Point) (hc : canonicalIds ps) :
    ps.any (fun q => q.id = ps.length + 1) = false := by
  rw [List.any_eq_false]
  intro q hq
  simp only [decide_eq_true_eq]
  intro hid
  have hmem : q.id ∈ ps.map Point.id := List.mem_map_of_mem Point.id hq
  rw [hc] at hmem
  have hrange := List.mem_range'_1.mp hmem
  omega

/-- With canonical ids, upserting the point with id `n + 1` appends it (no
existing point is replaced). -/
theorem upsert_fresh (ps : List Point) (hc : canonicalIds ps) (v : Vec) (t : String) :
    upsertPoint ps { id := ps.length + 1, vector := v, text := t }
      = ps ++ [{ id := ps.length + 1, vector := v, text := t }] := by
  unfold upsertPoint
  dsimp only
  rw [canonical_fresh_id ps hc]
  simp

/-- Each system operation preserves the invariant and only ever appends to
the stored points (so existing notes are never mutated or deleted). -/
theorem good_step (emb : String → Vec) (s : QdrantStore) (op : Op)
    (hg : Good emb s) :
    Good emb (runOp emb s op) ∧ s.points <+: (runOp emb s op).points := by
  cases op with
  | assure =>
      have hp : (runOp emb s Op.assure).points = s.points :=
        assure_preserves_points s
      refine ⟨⟨?_, ?_⟩, ?_⟩
      · rw [show (runOp emb s Op.assure).points = s.points from hp]
        exact hg.1
      · rw [hp]
        exact hg.2
      · rw [hp]
  | addNote t =>
      have he : (runOp emb s (Op.addNote t)).points
          = s.points ++ [{ id := s.points.length + 1, vector := emb t, text := t }] := by
        show (add_note_to_db emb t s).1.points = _
        unfold add_note_to_db
        dsimp only
        exact upsert_fresh s.points hg.1 (emb t) t
      refine ⟨⟨?_, ?_⟩, ?_⟩
      · rw [he]
        show (s.points ++ [_]).map Point.id = List.range' 1 (s.points ++ [_]).length
        rw [List.map_append, List.length_append, hg.1]
        simp [List.range'_concat, Nat.add_comm]
      · rw [he]
        intro p hp
        rcases List.mem_append.mp hp with hin | hnew
        · exact hg.2 p hin
        · rw [List.mem_singleton.mp hnew]
      · rw [he]
        exact ⟨_, rfl⟩
  | listNotes q o l =>
      exact ⟨hg, ⟨[], List.append_nil _⟩⟩

/-- The store the application starts from satisfies the invariant. -/
theorem good_init (emb : String → Vec) : Good emb initStore := by
  constructor
  · rfl
  · intro p hp
    cases hp

/-- Running any operation sequence preserves the invariant. -/
theorem good_runOps (emb : String → Vec) (s : QdrantStore) (hg : Good emb s)
    (ops : List Op) : Good emb (runOps emb s ops) := by
  induction ops generalizing s with
  | nil => exact hg
  | cons op ops ih => exact ih (runOp emb s op) (good_step emb s op hg).1

/-- C9: over every sequence of system operations from the initial (empty)
store, every stored note carries the embedding of exactly its own text as
computed at insertion time, and extending the sequence by any further
operation only appends to the stored points — no operation re-embeds,
mutates, or deletes an existing note. -/
theorem c9_note_vectors_immutable (emb : String → Vec) (ops : List Op) (op : Op) :
    (∀ p ∈ (runOps emb initStore ops).points, p.vector = emb p.text)
    ∧ (runOps emb initStore ops).points <+: (runOps emb initStore (ops ++ [op])).points := by
  have hg := good_runOps emb initStore (good_init emb) ops
  refine ⟨hg.2, ?_⟩
  simp only [runOps]
  rw [List.foldl_append]
  exact (good_step emb (runOps emb initStore ops) op hg).2

/-- The note stored by the witness trace of C9. -/
def pW9 : Point := { id := 1, vector := emb0 "kup mleko", text := "kup mleko" }

/-- C9 witness: on the concrete trace assure-then-add, the stored note is a
member, carries the embedding of its own text, and survives (as a prefix)
a further add. -/
theorem c9_note_vectors_immutable_witness :
    pW9 ∈ (runOps emb0 initStore [Op.assure, Op.addNote "kup mleko"]).points
    ∧ pW9.vector = emb0 pW9.text
    ∧ (runOps emb0 initStore [Op.assure, Op.addNote "kup mleko"]).points <+:
        (runOps emb0 initStore ([Op.assure, Op.addNote "kup mleko"] ++ [Op.addNote "zadzwoń"])).points :=
  ⟨by decide,
   (c9_note_vectors_immutable emb0 [Op.assure, Op.addNote "kup mleko"]
      (Op.addNote "zadzwoń")).1 pW9 (by decide),
   (c9_note_vectors_immutable emb0 [Op.assure, Op.addNote "kup mleko"]
      (Op.addNote "zadzwoń")).2⟩

/-- The only upsert `add_note_to_db` issues carries the note text it was
called with. -/
theorem upsert_call_text (emb : String → Vec) (t : String) (store : QdrantStore)
    (p : Point) (h : DbCall.upsert p ∈ (add_note_to_db emb t store).2) :
    p.text = t := by
  simp only [add_note_to_db, List.mem_cons, List.not_mem_nil, or_false] at h
  rcases h with h | h
  · cases h
  · cases h
    rfl

/-- C10: through the add-tab flow, an upsert against the vector store is
only ever issued with a non-empty note text: the save action is guarded by
the truthiness of the edited note text, so every note persisted via the
user interface has non-empty text. -/
theorem c10_saved_notes_nonempty (md5hex : List Nat → String)
    (api : List Nat → Except String String) (emb : String → Vec)
    (ui : AddTabUi) (audio : List Nat) (s : SessionState) (store : QdrantStore)
    (p : Point)
    (h : DbCall.upsert p ∈ (add_tab_flow md5hex api emb ui audio s store).2.2) :
    p.text ≠ "" := by
  unfold add_tab_flow at h
  split at h
  · cases h
  · dsimp only at h
    split at h
    next hcond =>
      rw [upsert_call_text emb _ store p h]
      exact hcond.1
    next hcond =>
      cases h

/-- A transcription oracle that succeeds, used in the C10 witness. -/
def apiOk : List Nat → Except String String := fun _ => Except.ok "kup mleko"

/-- User interaction for the C10 witness: transcribe, edit, save. -/
def uiW : AddTabUi :=
  { transcribeClicked := true, editedText := "kup mleko!", saveClicked := true }

/-- Fresh session state at the start of the C10 witness rerun. -/
def sessionInit : SessionState :=
  { note_audio_bytes_md5 := none
    note_audio_bytes := none
    note_text := ""
    note_audio_text := "" }

/-- The point the C10 witness flow upserts. -/
def pW10 : Point :=
  { id := 1, vector := emb0 "kup mleko!", text := "kup mleko!" }

/-- C10 witness: a concrete rerun that records audio, transcribes, edits and
saves does issue an upsert, and its note text is non-empty. -/
theorem c10_saved_notes_nonempty_witness :
    DbCall.upsert pW10
      ∈ (add_tab_flow md5hex0 apiOk emb0 uiW [1, 2] sessionInit emptyStore).2.2
    ∧ pW10.text ≠ "" :=
  ⟨by decide,
   c10_saved_notes_nonempty md5hex0 apiOk emb0 uiW [1, 2] sessionInit emptyStore
     pW10 (by decide)⟩

end AudioNotes
